import Mathlib

/-!
Verification of the CCAS dashboard data pipeline against its specification.

The definitions below are a shallow embedding of the Python scripts of the
repository (`scripts/calibrate_qaq.py`, `scripts/calibrate_data.py`,
`scripts/generate_json.py`, `scripts/hellolamppost_integration.py`):

* real-valued pollutant arithmetic (exponential risk terms, AQHI) is
  embedded over `ℝ`, with float NaN represented by `Option.none` and the
  NaN-propagation of the float operations made explicit;
* exact bookkeeping (timestamps, window assembly, calibration tables,
  dictionary lookups) is embedded over `Int` / `ℚ` so that the theorems
  about it are decidable;
* a Python value that may be `None`, a number or a string is embedded as
  the inductive `PyVal`; a Python expression that can raise `TypeError`
  is embedded in `Except Unit`.
-/

namespace CCAS

/-! ## AQHI Calculator (`scripts/calibrate_qaq.py`, lines 113-130)

The script computes, from the 3-hour rolling means of the calibrated
`NO2`, `O3` and `PM2.5` columns:

    NO2_component  = np.exp(0.000871 * rolling["NO2"] / 1000) - 1
    O3_component   = np.exp(0.000537 * rolling["O3"] / 1000) - 1
    PM25_component = np.exp(0.000487 * rolling["PM2.5"]) - 1
    component_sum  = NO2_component + O3_component + PM25_component
    contrib_X      = X_component / component_sum
    AQHI           = (10 / 10.4) * 100 * component_sum
    Top_AQHI_Contributor = idxmax(axis=1) over the three contrib columns
-/

/-- Risk term the code computes from the NO2 rolling mean; note the
division of the mean by 1000 present in the source (line 116). -/
noncomputable def NO2_component (m : ℝ) : ℝ := Real.exp (0.000871 * m / 1000) - 1

/-- Risk term the code computes from the O3 rolling mean; note the
division of the mean by 1000 present in the source (line 117). -/
noncomputable def O3_component (m : ℝ) : ℝ := Real.exp (0.000537 * m / 1000) - 1

/-- Risk term the code computes from the PM2.5 rolling mean (no division
by 1000 in the source for this one, line 118). -/
noncomputable def PM25_component (m : ℝ) : ℝ := Real.exp (0.000487 * m) - 1

/-- `component_sum` of the source (line 121). -/
noncomputable def component_sum (n o p : ℝ) : ℝ :=
  NO2_component n + O3_component o + PM25_component p

/-- `df["AQHI"] = (10 / 10.4) * 100 * component_sum` (line 127). -/
noncomputable def AQHI (n o p : ℝ) : ℝ := 10 / 10.4 * 100 * component_sum n o p

/-- `df["NO2_contrib"] = NO2_component / component_sum` (line 122). -/
noncomputable def NO2_contrib (n o p : ℝ) : ℝ :=
  NO2_component n / component_sum n o p

/-- `df["O3_contrib"] = O3_component / component_sum` (line 123). -/
noncomputable def O3_contrib (n o p : ℝ) : ℝ :=
  O3_component o / component_sum n o p

/-- `df["PM25_contrib"] = PM25_component / component_sum` (line 124). -/
noncomputable def PM25_contrib (n o p : ℝ) : ℝ :=
  PM25_component p / component_sum n o p

/-- The AQHI value the specification prescribes for given trailing means:
the same formula but with the means fed to the exponentials unrescaled
(spec section 4.4: "do not rescale"). -/
noncomputable def AQHI_spec (n o p : ℝ) : ℝ :=
  10 / 10.4 * 100 *
    ((Real.exp (0.000871 * n) - 1) + (Real.exp (0.000537 * o) - 1) +
      (Real.exp (0.000487 * p) - 1))

/-! ### NaN-propagating (Option-valued) variant

A float NaN (a rolling mean over an empty/all-NaN 3-hour window, or any
arithmetic on such a value) is represented by `none`.  `np.exp`, `+`, `/`
all map NaN to NaN, which is what `Option.map` / the matches below encode.
An exactly-zero `component_sum` would make the float division produce
inf or NaN rather than a real number; no theorem below divides by zero. -/

/-- Elementwise float division with NaN propagation. -/
noncomputable def nanDiv (a b : Option ℝ) : Option ℝ :=
  match a, b with
  | some x, some y => some (x / y)
  | _, _ => none

/-- `component_sum` on possibly-NaN component inputs: NaN if any of the
three rolling means is NaN. -/
noncomputable def component_sumO (n o p : Option ℝ) : Option ℝ :=
  match n.map NO2_component, o.map O3_component, p.map PM25_component with
  | some a, some b, some c => some (a + b + c)
  | _, _, _ => none

/-- `df["AQHI"]` on possibly-NaN inputs. -/
noncomputable def AQHIO (n o p : Option ℝ) : Option ℝ :=
  (component_sumO n o p).map (fun s => 10 / 10.4 * 100 * s)

/-- `df["NO2_contrib"]` on possibly-NaN inputs. -/
noncomputable def NO2_contribO (n o p : Option ℝ) : Option ℝ :=
  nanDiv (n.map NO2_component) (component_sumO n o p)

/-- `df["O3_contrib"]` on possibly-NaN inputs. -/
noncomputable def O3_contribO (n o p : Option ℝ) : Option ℝ :=
  nanDiv (o.map O3_component) (component_sumO n o p)

/-- `df["PM25_contrib"]` on possibly-NaN inputs. -/
noncomputable def PM25_contribO (n o p : Option ℝ) : Option ℝ :=
  nanDiv (p.map PM25_component) (component_sumO n o p)

section
open Classical

/-- pandas `DataFrame.idxmax(axis=1)` over one row of labelled, possibly
NaN values: NaN entries are skipped (`skipna=True` default), the label of
the first entry attaining the maximum of the remaining values is
returned, and an all-NaN row yields NaN (`none`). -/
noncomputable def idxmaxRow (row : List (String × Option ℝ)) : Option String :=
  match row.filterMap (fun e => e.2.map (fun v => (e.1, v))) with
  | [] => none
  | v :: vs => some ((vs.foldl (fun best x => if best.2 < x.2 then x else best) v).1)

/-- Line 130 of `calibrate_qaq.py`: idxmax over the columns
`NO2_contrib`, `O3_contrib`, `PM25_contrib` in that order.  The source
labels the columns with a `_contrib` suffix and strips it with
`str.replace` after the idxmax; we use the stripped pollutant names as
the labels directly. -/
noncomputable def Top_AQHI_ContributorO (n o p : Option ℝ) : Option String :=
  idxmaxRow
    [("NO2", NO2_contribO n o p), ("O3", O3_contribO n o p),
      ("PM25", PM25_contribO n o p)]

/-- Modelled from the spec (section 4.4, step 4): the dominant
contributor is the pollutant whose individual risk term is largest, the
first-listed pollutant winning ties (matching idxmax's first-occurrence
rule). -/
noncomputable def dominant_by_risk (n o p : ℝ) : String :=
  if O3_component o ≤ NO2_component n ∧ PM25_component p ≤ NO2_component n then "NO2"
  else if PM25_component p ≤ O3_component o then "O3"
  else "PM25"

end

/-! ## Calibrated rows of `calibrate_qaq.py`

One row of the per-sensor dataframe after calibration.  Timestamps are
integers (hours, in the fixed civil zone); a missing / NaN numeric cell
is `none`.  The `TE` column can hold either a number (the stale fallback
writes `-1` into it) or a string (the calibration writes `"QAQ"`), hence
the sum type.  Field `PM1`, `PM25`, `PM10` stand for the source columns
`PM1.0`, `PM2.5`, `PM10`. -/

structure QRow where
  DATE : Int
  TE : Option (ℝ ⊕ String)
  CO : Option ℝ
  NO : Option ℝ
  NO2 : Option ℝ
  O3 : Option ℝ
  CO2 : Option ℝ
  T : Option ℝ
  RH : Option ℝ
  PM1 : Option ℝ
  PM25 : Option ℝ
  PM10 : Option ℝ
  AQHI : Option ℝ
  Top_AQHI_Contributor : Option String

/-- A row at timestamp `d` with every data cell empty. -/
def emptyQRow (d : Int) : QRow :=
  ⟨d, none, none, none, none, none, none, none, none, none, none, none, none, none⟩

/-- Lines 104-130 of `calibrate_qaq.py` overwrite only the `AQHI` and
`Top_AQHI_Contributor` columns of the dataframe from the three rolling
means; every other column of the row is untouched. -/
noncomputable def annotateAQHI (r : QRow) (n o p : Option ℝ) : QRow :=
  { r with AQHI := AQHIO n o p, Top_AQHI_Contributor := Top_AQHI_ContributorO n o p }

/-! ## Stale-data fallback (`scripts/calibrate_qaq.py`, lines 83-92)

    df = df[df["DATE"] >= past_24h].copy()
    if df.empty or df["DATE"].max() < past_24h:
        fallback = {col: -1 for col in [...all fields..., "AQHI"]}
        fallback["DATE"] = now ; fallback["Top_AQHI_Contributor"] = "-1"
        df = pd.DataFrame([fallback])
-/

/-- `df[df["DATE"] >= past_24h]`. -/
def filterRecentQ (rows : List QRow) (past24h : Int) : List QRow :=
  rows.filter (fun r => past24h ≤ r.DATE)

/-- `df["DATE"].max()`; `none` on an empty frame. -/
def maxDateQ : List QRow → Option Int
  | [] => none
  | r :: rs => some ((rs.map QRow.DATE).foldl max r.DATE)

/-- The staleness test of line 85: `df.empty or df["DATE"].max() < past_24h`. -/
def isStale (rows : List QRow) (past24h : Int) : Bool :=
  match maxDateQ rows with
  | none => true
  | some m => decide (m < past24h)

/-- The fallback row of lines 88-91: every listed column set to the
number `-1`, `DATE` set to the current time, and the contributor set to
the string `"-1"`. -/
def staleFallback (now : Int) : QRow :=
  ⟨now, some (Sum.inl (-1)), some (-1), some (-1), some (-1), some (-1), some (-1),
    some (-1), some (-1), some (-1), some (-1), some (-1), some (-1), some "-1"⟩

/-- Line 85-92: replace a stale window with the single fabricated
fallback row. -/
def applyStaleFallback (df : List QRow) (past24h now : Int) : List QRow :=
  if isStale df past24h then [staleFallback now] else df

/-! ## Per-field calibration (`scripts/calibrate_qaq.py`, lines 32-44, 96-102)

For each raw column the script runs
`df[std] = calibration_functions[std](pd.to_numeric(df[raw], errors="coerce"))`.
`errors="coerce"` turns an unparsable cell into NaN, so a numeric cell is
modelled as `Option ℚ` (`none` = missing or unparsable) and the
elementwise application of the per-field lambda as `Option.map` (every
numeric lambda in the table maps NaN to NaN). -/

/-- The per-field numeric lambdas of the `calibration_functions` table of
`calibrate_qaq.py` (lines 33-42); every field not matched below is an
identity in the source (`CO2`, `RH`, `PM1.0`, `PM2.5`, `PM10`). -/
def calibration_functions_qaq (std : String) : ℚ → ℚ :=
  if std = "CO" then fun x => x * 1.1
  else if std = "NO" then fun x => x * 0.9
  else if std = "NO2" then fun x => x * 1.05
  else if std = "O3" then fun x => x * 1.2
  else if std = "T" then fun x => x + 0.5
  else fun x => x

/-- Line 98: elementwise application of the field's calibration lambda to
the coerced column. -/
def calibrateField (std : String) (x : Option ℚ) : Option ℚ :=
  x.map (calibration_functions_qaq std)

/-- Line 43 and 102: the `TE` entry of the table is `lambda x: "QAQ"` and
is applied to `None`, so it produces the placeholder string `"QAQ"`
whatever its input — including "no value". -/
def calibration_TE (_x : Option (ℚ ⊕ String)) : Option (ℚ ⊕ String) :=
  some (Sum.inr "QAQ")

/-! ## Calibration Engine of `scripts/calibrate_data.py` (lines 42-55, 120-123)

    for col, func in calibration_functions.items():
        if col in recent_df.columns:
            recent_df[col] = recent_df[col].apply(func)

The configuration is the spec's declarative form — canonical field name
to `(scale, offset)`; every lambda stored in the source table is such an
affine map (`x * 1.1`, `x * 0.9`, ..., `x + 0.5`, identity).  A field of
the row with no entry in the table passes through unchanged; a field's
missing value (NaN) passes through `Option.map` unchanged. -/

/-- Apply an affine calibration table to one row (field name, value)
list; fields absent from the table are untouched. -/
def calibrateRow (table : List (String × ℚ × ℚ)) (row : List (String × Option ℚ)) :
    List (String × Option ℚ) :=
  row.map (fun fv =>
    match table.find? (fun e => e.1 == fv.1) with
    | some e => (fv.1, fv.2.map (fun x => x * e.2.1 + e.2.2))
    | none => fv)

/-! ## Window Assembler
(`scripts/calibrate_data.py` lines 100-115, `scripts/generate_json.py` lines 164-176)

`calibrate_data.py` concatenates the raw daily partitions with
`pd.concat(dfs, ignore_index=True)` — no deduplication — and filters to
the trailing 24 hours.  `generate_json.py` sorts the rows of the
resulting file ascending by timestamp and keeps the trailing
`HISTORY_HOURS` (relative to the newest row) — again without any
deduplication. -/

structure DRow where
  sensor_id : String
  DATE : Int
  PM25 : Option ℚ
deriving DecidableEq

/-- `pd.concat(dfs, ignore_index=True)` (line 101 of `calibrate_data.py`). -/
def joinPartitions (dfs : List (List DRow)) : List DRow := dfs.flatten

/-- `joined_df[joined_df["DATE"] >= past_24h]` (line 115 of `calibrate_data.py`). -/
def filterRecentD (rows : List DRow) (past24h : Int) : List DRow :=
  rows.filter (fun r => past24h ≤ r.DATE)

/-- `df.sort_values("DATE")` (line 171 of `generate_json.py`): sort
ascending by timestamp (the source's sort is not required to be stable,
so any ascending sort is a faithful model). -/
def sortByDate (rows : List DRow) : List DRow :=
  List.insertionSort (fun a b => a.DATE ≤ b.DATE) rows

/-- `df["DATE"].max()`; `none` on an empty frame. -/
def maxDateD : List DRow → Option Int
  | [] => none
  | r :: rs => some ((rs.map DRow.DATE).foldl max r.DATE)

/-- Lines 174-176 of `generate_json.py`: if `HISTORY_HOURS > 0` and the
frame is non-empty, keep rows with `DATE >= max - HISTORY_HOURS`. -/
def windowFilter (rows : List DRow) (hist : Int) : List DRow :=
  if 0 < hist then
    match maxDateD rows with
    | none => rows
    | some m => rows.filter (fun r => m - hist ≤ r.DATE)
  else rows

/-- The composite window assembly: concatenate partitions
(`calibrate_data.py`), filter to the trailing 24 hours, then sort and
apply the history window (`generate_json.py`). -/
def buildWindow (dfs : List (List DRow)) (past24h hist : Int) : List DRow :=
  windowFilter (sortByDate (filterRecentD (joinPartitions dfs) past24h)) hist

/-- One five-row daily partition for sensor 2021. -/
def overlapPart : List DRow :=
  [⟨"2021", 1, some 1⟩, ⟨"2021", 2, some 2⟩, ⟨"2021", 3, some 3⟩,
    ⟨"2021", 4, some 4⟩, ⟨"2021", 5, some 5⟩]

/-- Two fully overlapping partitions sharing 5 timestamps (the spec's
multi-partition merge scenario). -/
def overlapScenario : List (List DRow) := [overlapPart, overlapPart]

instance : IsTotal DRow (fun a b => a.DATE ≤ b.DATE) :=
  ⟨fun a b => Int.le_total a.DATE b.DATE⟩

instance : IsTrans DRow (fun a b => a.DATE ≤ b.DATE) :=
  ⟨fun _ _ _ => Int.le_trans⟩

/-! ## Timestamp parsing (`scripts/generate_json.py`, lines 164-169)

    df["DATE"] = df["DATE"].astype(str).str.replace(r"Z$", "", regex=True)
    df["DATE"] = pd.to_datetime(df["DATE"], errors="coerce")
    df["DATE"] = df["DATE"].map(lambda t: ... PACIFIC.localize(t))

A timestamp input is modelled by its wall-clock reading `wall` (minutes)
plus a flag `hasZ` saying whether the text carried a trailing `Z` (i.e.
designated UTC).  A wall-clock time `w` in a zone of UTC offset `o`
denotes the instant `w - o` (UTC minutes).  `PACIFIC.localize` therefore
sends a naive wall time `w` to the instant `w - off` where `off` is the
Pacific UTC offset (negative, e.g. -420 during daylight saving). -/

/-- The regex replace `r"Z$" -> ""`: the zone marker is discarded, only
the wall-clock digits survive. -/
def stripZ (wall : Int) (_hasZ : Bool) : Int := wall

/-- The instant denoted by the code's parse of a timestamp: strip any
`Z`, then localize the remaining wall time in the Pacific zone. -/
def codeParsedInstant (off wall : Int) (hasZ : Bool) : Int :=
  stripZ wall hasZ - off

/-- Modelled from the spec (section 4.3): a timestamp lacking zone
information is treated as already Pacific; a timestamp carrying `Z`
denotes the instant `wall` in UTC and conversion must preserve it. -/
def specParsedInstant (off wall : Int) (hasZ : Bool) : Int :=
  if hasZ then wall else wall - off

/-! ## HelloLamppost integration (`scripts/hellolamppost_integration.py`)
and the snapshot's `latest` record (`scripts/generate_json.py`, lines 184-196) -/

/-- A Python value as it appears in the decoded JSON: `None`, a number,
or a string. -/
inductive PyVal where
  | null
  | num (q : ℚ)
  | str (s : String)
deriving DecidableEq

/-- Python's `v <= k` for an int literal `k`: defined for numbers, a
`TypeError` for `None` or a string. -/
def pyLE (v : PyVal) (k : ℚ) : Except Unit Bool :=
  match v with
  | PyVal.num q => Except.ok (decide (q ≤ k))
  | _ => Except.error ()

/-- `aqhi_label` of `hellolamppost_integration.py` (lines 21-30): the
equality test `v == "N/A"` never raises, each subsequent `v <= k`
comparison raises for a non-numeric `v`. -/
def aqhi_label (v : PyVal) : Except Unit String :=
  if v = PyVal.str "N/A" then Except.ok "no data"
  else
    match pyLE v 3 with
    | Except.error e => Except.error e
    | Except.ok true => Except.ok "Low health risk"
    | Except.ok false =>
      match pyLE v 6 with
      | Except.error e => Except.error e
      | Except.ok true => Except.ok "Moderate health risk"
      | Except.ok false =>
        match pyLE v 10 with
        | Except.error e => Except.error e
        | Except.ok true => Except.ok "High health risk"
        | Except.ok false => Except.ok "Very high health risk"

/-- Python `dict.get(k, default)`: the default is used only when the key
is absent — a key present with value `None` returns `None`. -/
def pyGet (d : List (String × PyVal)) (k : String) (dflt : PyVal) : PyVal :=
  match d.find? (fun e => e.1 == k) with
  | some e => e.2
  | none => dflt

/-- `round(x, 1)`.  (Python rounds half to even while `round` here
rounds half up; no theorem below evaluates a tie.) -/
def round1 (q : ℚ) : ℚ := (round (q * 10) : ℚ) / 10

/-- The scalar entries of the `latest` record built by
`generate_json.py` (lines 184-187): a missing (NaN) AQHI is emitted as
`None`, not omitted and not defaulted.  (The nested `pollutants` dict is
not needed by any claim and is left out.) -/
def mkLatest (ts : Option String) (aqhi : Option ℚ) (primary : Option String) :
    List (String × PyVal) :=
  [("timestamp", match ts with | some s => PyVal.str s | none => PyVal.null),
    ("aqhi", match aqhi with | some q => PyVal.num (round1 q) | none => PyVal.null),
    ("primary", match primary with | some s => PyVal.str s | none => PyVal.null)]

end CCAS

open CCAS

/-! ## Helper lemmas -/

/-- Characterization of `idxmaxRow` on a three-entry row with no NaN:
first entry wins ties, otherwise the later maximum. -/
theorem idxmaxRow_three (na nb nc : String) (a b c : ℝ) :
    idxmaxRow [(na, some a), (nb, some b), (nc, some c)] =
      some (if b ≤ a ∧ c ≤ a then na else if c ≤ b then nb else nc) := by
  unfold idxmaxRow
  simp only [List.filterMap_cons, Option.map_some', List.filterMap_nil,
    List.foldl_cons, List.foldl_nil]
  rcases le_or_lt b a with hab | hab
  · rw [if_neg (not_lt.mpr hab)]
    rcases le_or_lt c a with hac | hac
    · rw [if_neg (not_lt.mpr hac), if_pos ⟨hab, hac⟩]
    · rw [if_pos hac, if_neg (fun h : b ≤ a ∧ c ≤ a => absurd h.2 (not_le.mpr hac)),
        if_neg (not_le.mpr (lt_of_le_of_lt hab hac))]
  · rw [if_pos hab]
    rcases le_or_lt c b with hcb | hcb
    · rw [if_neg (not_lt.mpr hcb), if_neg (fun h : b ≤ a ∧ c ≤ a => absurd h.1 (not_le.mpr hab)),
        if_pos hcb]
    · rw [if_pos hcb, if_neg (fun h : b ≤ a ∧ c ≤ a => absurd h.1 (not_le.mpr hab)),
        if_neg (not_le.mpr hcb)]

/-- NaN propagation of `component_sumO`. -/
theorem component_sumO_none (n o p : Option ℝ)
    (h : n = none ∨ o = none ∨ p = none) : component_sumO n o p = none := by
  rcases h with h | h | h <;> subst h
  · cases o <;> cases p <;> rfl
  · cases n <;> cases p <;> rfl
  · cases n <;> cases o <;> rfl

/-- NaN propagation of `nanDiv` in its denominator. -/
theorem nanDiv_none_right (a : Option ℝ) : nanDiv a none = none := by
  cases a <;> rfl

/-! ## Claim C1 -/

/-- C1: at the spec's scenario input `mean_NO2 = 20`, `mean_O3 = 30`,
`mean_PM2_5 = 10`, the AQHI computed by the code equals the formula with
the NO2 and O3 means divided by 1000 inside the exponentials, and is
strictly smaller than the value the claim prescribes (the unrescaled
formula `AQHI_spec`); so the code does rescale two of the three means,
contradicting the claim. -/
theorem C1_code_rescales_NO2_O3_means :
    CCAS.AQHI 20 30 10 =
      10 / 10.4 * 100 *
        ((Real.exp (0.000871 * 20 / 1000) - 1) +
          (Real.exp (0.000537 * 30 / 1000) - 1) +
          (Real.exp (0.000487 * 10) - 1)) ∧
    CCAS.AQHI 20 30 10 < CCAS.AQHI_spec 20 30 10 := by
  constructor
  · rfl
  · unfold CCAS.AQHI CCAS.AQHI_spec CCAS.component_sum CCAS.NO2_component
      CCAS.O3_component CCAS.PM25_component
    have h1 : Real.exp (0.000871 * 20 / 1000) < Real.exp (0.000871 * 20) :=
      Real.exp_lt_exp.mpr (by norm_num)
    have h2 : Real.exp (0.000537 * 30 / 1000) < Real.exp (0.000537 * 30) :=
      Real.exp_lt_exp.mpr (by norm_num)
    have h3 : (0:ℝ) < 10 / 10.4 * 100 := by norm_num
    apply mul_lt_mul_of_pos_left _ h3
    linarith

/-! ## Claim C8 -/

/-- C8: the AQHI computed by the code is monotone non-decreasing in each
of the three trailing means separately (increasing any one mean while
holding the other two fixed never decreases the AQHI). -/
theorem C8_aqhi_monotone (n n' o o' p p' : ℝ) :
    (n ≤ n' → CCAS.AQHI n o p ≤ CCAS.AQHI n' o p) ∧
    (o ≤ o' → CCAS.AQHI n o p ≤ CCAS.AQHI n o' p) ∧
    (p ≤ p' → CCAS.AQHI n o p ≤ CCAS.AQHI n o p') := by
  refine ⟨fun h => ?_, fun h => ?_, fun h => ?_⟩ <;>
    unfold CCAS.AQHI CCAS.component_sum CCAS.NO2_component CCAS.O3_component
      CCAS.PM25_component <;>
    gcongr

/-- Witness for C8: each monotonicity hypothesis discharged at `1 ≤ 2`. -/
theorem C8_aqhi_monotone_witness :
    CCAS.AQHI 1 1 1 ≤ CCAS.AQHI 2 1 1 ∧
    CCAS.AQHI 1 1 1 ≤ CCAS.AQHI 1 2 1 ∧
    CCAS.AQHI 1 1 1 ≤ CCAS.AQHI 1 1 2 :=
  ⟨(C8_aqhi_monotone 1 2 1 1 1 1).1 (by norm_num),
   (C8_aqhi_monotone 1 1 1 2 1 1).2.1 (by norm_num),
   (C8_aqhi_monotone 1 1 1 1 1 2).2.2 (by norm_num)⟩

/-! ## Claim C2 -/

/-- C2 counterexample: the spec's stale-data scenario (the sensor's only
reading is 48 hours old with a 24-hour window, times in hours with `now
= 0`).  The code does not report "no data" with empty history: it
fabricates a fallback row carrying the default numeric value `-1` for
the pollutant fields and AQHI and the string `"-1"` as contributor, so
the resulting window is not empty. -/
theorem C2_counterexample :
    applyStaleFallback (filterRecentQ [emptyQRow (-48)] (-24)) (-24) 0 =
      [staleFallback 0] ∧
    (staleFallback 0).NO2 = some (-1) ∧
    (staleFallback 0).AQHI = some (-1) ∧
    (staleFallback 0).Top_AQHI_Contributor = some "-1" ∧
    applyStaleFallback (filterRecentQ [emptyQRow (-48)] (-24)) (-24) 0 ≠ [] := by
  have h1 : applyStaleFallback (filterRecentQ [emptyQRow (-48)] (-24)) (-24) 0 =
      [staleFallback 0] := rfl
  refine ⟨h1, rfl, rfl, rfl, ?_⟩
  rw [h1]
  simp

/-- C2 (amended): whenever the filtered window is stale (empty, or its
newest timestamp is older than the cutoff), the code replaces it by the
single fabricated fallback row timestamped "now", whose pollutant
fields and AQHI hold the default numeric value `-1` and whose
contributor is the string `"-1"` — it does not report `latest` as a
"no data" marker with empty history. -/
theorem C2_amended_fallback (df : List QRow) (past now : Int)
    (h : isStale df past = true) :
    applyStaleFallback df past now = [staleFallback now] ∧
    (staleFallback now).NO2 = some (-1) ∧
    (staleFallback now).O3 = some (-1) ∧
    (staleFallback now).PM25 = some (-1) ∧
    (staleFallback now).AQHI = some (-1) ∧
    (staleFallback now).Top_AQHI_Contributor = some "-1" ∧
    (staleFallback now).DATE = now := by
  refine ⟨?_, rfl, rfl, rfl, rfl, rfl, rfl⟩
  unfold applyStaleFallback
  simp [h]

/-- Witness for C2 (amended) at the empty window, `past = 0`, `now = 7`;
the staleness hypothesis holds by computation. -/
theorem C2_amended_fallback_witness :
    applyStaleFallback [] 0 7 = [staleFallback 7] ∧
    (staleFallback 7).NO2 = some (-1) ∧
    (staleFallback 7).O3 = some (-1) ∧
    (staleFallback 7).PM25 = some (-1) ∧
    (staleFallback 7).AQHI = some (-1) ∧
    (staleFallback 7).Top_AQHI_Contributor = some "-1" ∧
    (staleFallback 7).DATE = 7 :=
  C2_amended_fallback [] 0 7 rfl

/-! ## Claim C3 -/

/-- C3 counterexample: at rolling means `NO2 = 0`, `O3 = 0`,
`PM2.5 = -3000` the component sum is negative, and normalizing by it
flips the comparison: the code reports `PM25` as the dominant
contributor even though the PM2.5 risk term is strictly the smallest of
the three (both other terms are larger), while the spec's argmax over
the raw risk terms gives `NO2`. -/
theorem C3_counterexample :
    Top_AQHI_ContributorO (some 0) (some 0) (some (-3000)) = some "PM25" ∧
    PM25_component (-3000) < NO2_component 0 ∧
    PM25_component (-3000) < O3_component 0 ∧
    dominant_by_risk 0 0 (-3000) = "NO2" := by
  have hN : NO2_component 0 = 0 := by
    unfold NO2_component
    norm_num [Real.exp_zero]
  have hO : O3_component 0 = 0 := by
    unfold O3_component
    norm_num [Real.exp_zero]
  have hP : PM25_component (-3000) < 0 := by
    unfold PM25_component
    have h : (0.000487 * (-3000) : ℝ) < 0 := by norm_num
    have := Real.exp_lt_one_iff.mpr h
    linarith
  have hPne : PM25_component (-3000) ≠ 0 := ne_of_lt hP
  have hs : component_sum 0 0 (-3000) = PM25_component (-3000) := by
    unfold component_sum
    rw [hN, hO]
    ring
  have hc1 : NO2_contribO (some 0) (some 0) (some (-3000)) = some 0 := by
    show some (NO2_component 0 / component_sum 0 0 (-3000)) = some 0
    rw [hN, zero_div]
  have hc2 : O3_contribO (some 0) (some 0) (some (-3000)) = some 0 := by
    show some (O3_component 0 / component_sum 0 0 (-3000)) = some 0
    rw [hO, zero_div]
  have hc3 : PM25_contribO (some 0) (some 0) (some (-3000)) = some 1 := by
    show some (PM25_component (-3000) / component_sum 0 0 (-3000)) = some 1
    rw [hs, div_self hPne]
  refine ⟨?_, by rw [hN]; exact hP, by rw [hO]; exact hP, ?_⟩
  · unfold Top_AQHI_ContributorO
    rw [hc1, hc2, hc3, idxmaxRow_three]
    norm_num
  · unfold dominant_by_risk
    rw [if_pos ⟨le_of_eq (hO.trans hN.symm), by rw [hN]; exact hP.le⟩]

/-- C3 (amended): whenever the component sum is positive, dividing the
risk terms by it preserves their order, so the contributor the code
reports via idxmax over the normalized contributions equals the
pollutant with the numerically greatest individual risk term; with a
zero or negative sum the normalization is not order-preserving (see the
counterexample). -/
theorem C3_amended_argmax (n o p : ℝ) (hs : 0 < component_sum n o p) :
    Top_AQHI_ContributorO (some n) (some o) (some p) =
      some (dominant_by_risk n o p) := by
  have hc1 : NO2_contribO (some n) (some o) (some p) =
      some (NO2_component n / component_sum n o p) := rfl
  have hc2 : O3_contribO (some n) (some o) (some p) =
      some (O3_component o / component_sum n o p) := rfl
  have hc3 : PM25_contribO (some n) (some o) (some p) =
      some (PM25_component p / component_sum n o p) := rfl
  unfold Top_AQHI_ContributorO
  rw [hc1, hc2, hc3, idxmaxRow_three]
  unfold dominant_by_risk
  simp only [div_le_div_iff_of_pos_right hs]

/-- Witness for C3 (amended) at means `(1, 1, 1)`: the positive-sum
hypothesis holds because each exponential risk term at a positive mean
is positive. -/
theorem C3_amended_argmax_witness :
    0 < component_sum 1 1 1 ∧
    Top_AQHI_ContributorO (some 1) (some 1) (some 1) =
      some (dominant_by_risk 1 1 1) := by
  have e1 : 0 < NO2_component 1 := by
    unfold NO2_component
    have := Real.one_lt_exp_iff.mpr (show (0:ℝ) < 0.000871 * 1 / 1000 by norm_num)
    linarith
  have e2 : 0 < O3_component 1 := by
    unfold O3_component
    have := Real.one_lt_exp_iff.mpr (show (0:ℝ) < 0.000537 * 1 / 1000 by norm_num)
    linarith
  have e3 : 0 < PM25_component 1 := by
    unfold PM25_component
    have := Real.one_lt_exp_iff.mpr (show (0:ℝ) < 0.000487 * 1 by norm_num)
    linarith
  have hs : 0 < component_sum 1 1 1 := by
    unfold component_sum
    linarith
  exact ⟨hs, C3_amended_argmax 1 1 1 hs⟩

/-! ## Claim C4 -/

/-- C4 counterexample: two fully overlapping partitions sharing 5
timestamps.  The assembled window retains both copies of every row — it
contains duplicate `(sensor_id, timestamp)` pairs and has 10 rows, not
the deduplicated distinct-timestamp count 5. -/
theorem C4_counterexample :
    ¬ ((buildWindow overlapScenario 0 100).map
        (fun r => (r.sensor_id, r.DATE))).Nodup ∧
    (buildWindow overlapScenario 0 100).length = 10 := by
  constructor
  · decide
  · decide

/-- C4 (amended): the assembled window is sorted ascending by timestamp,
but duplicates from overlapping partitions are not collapsed: the two
overlapping partitions with 5 shared timestamps yield 10 rows, one per
source row, not the deduplicated count. -/
theorem C4_amended_sorted_but_duplicated (dfs : List (List DRow)) (past hist : Int) :
    List.Sorted (fun a b : DRow => a.DATE ≤ b.DATE) (buildWindow dfs past hist) ∧
    (buildWindow overlapScenario 0 100).length = 10 := by
  constructor
  · have hsorted : List.Sorted (fun a b : DRow => a.DATE ≤ b.DATE)
        (sortByDate (filterRecentD (joinPartitions dfs) past)) := by
      unfold sortByDate
      exact List.sorted_insertionSort _ _
    unfold buildWindow windowFilter
    split_ifs
    · cases hm : maxDateD (sortByDate (filterRecentD (joinPartitions dfs) past)) with
      | none => exact hsorted
      | some m => exact List.Pairwise.filter _ hsorted
    · exact hsorted
  · decide

/-! ## Claim C5 -/

/-- C5 counterexample: a timestamp reading `wall = 0` that carries a
trailing `Z` (it denotes the instant 0, UTC), parsed while the Pacific
offset is `-420` minutes.  The code strips the `Z` and localizes the
wall time as Pacific, yielding the instant `420` — the denoted instant
is not preserved. -/
theorem C5_counterexample :
    codeParsedInstant (-420) 0 true = 420 ∧
    specParsedInstant (-420) 0 true = 0 ∧
    codeParsedInstant (-420) 0 true ≠ specParsedInstant (-420) 0 true := by
  refine ⟨rfl, rfl, ?_⟩
  decide

/-- C5 (amended): a timestamp lacking zone information is treated as
Pacific wall-clock time, as the claim states; but a timestamp carrying a
trailing `Z` has its zone marker stripped and is re-interpreted as
Pacific wall-clock time, which shifts the denoted instant by the Pacific
UTC offset whenever that offset is nonzero. -/
theorem C5_amended_reinterprets_zoned (off wall : Int) (hoff : off ≠ 0) :
    codeParsedInstant off wall false = specParsedInstant off wall false ∧
    codeParsedInstant off wall true = wall - off ∧
    codeParsedInstant off wall true ≠ specParsedInstant off wall true := by
  refine ⟨rfl, rfl, ?_⟩
  unfold codeParsedInstant specParsedInstant stripZ
  simp only [if_pos]
  omega

/-- Witness for C5 (amended) at the Pacific daylight-saving offset
`-420` minutes and wall reading `17`. -/
theorem C5_amended_reinterprets_zoned_witness :
    codeParsedInstant (-420) 17 false = specParsedInstant (-420) 17 false ∧
    codeParsedInstant (-420) 17 true = 17 - (-420) ∧
    codeParsedInstant (-420) 17 true ≠ specParsedInstant (-420) 17 true :=
  C5_amended_reinterprets_zoned (-420) 17 (by decide)

/-! ## Claim C6 -/

/-- C6 counterexample: the `TE` entry of the calibration table is
`lambda x: "QAQ"`; applied to "no value" it materializes the placeholder
string `"QAQ"` instead of leaving the field empty. -/
theorem C6_counterexample :
    calibration_TE none = some (Sum.inr "QAQ") ∧ calibration_TE none ≠ none := by
  refine ⟨rfl, ?_⟩
  simp [calibration_TE]

/-- C6 (amended): for every numeric canonical field the per-field
correction maps "no value" to "no value"; the `TE` field is the
exception — its table entry ignores its input and materializes the
placeholder string `"QAQ"`, also where no value existed. -/
theorem C6_amended_numeric_noop_TE_materializes (std : String)
    (x : Option (ℚ ⊕ String)) :
    calibrateField std none = none ∧ calibration_TE x = some (Sum.inr "QAQ") :=
  ⟨rfl, rfl⟩

/-! ## Claim C7 -/

/-- C7: if any of the three 3-hour rolling means is NaN ("no value") at a
row, then the AQHI of that row is NaN and the dominant contributor of
that row is NaN (all three normalized contributions are NaN through the
NaN component sum, and idxmax of an all-NaN row is NaN), while every
other field of the row keeps its value. -/
theorem C7_missing_mean_nulls_aqhi (r : QRow) (n o p : Option ℝ)
    (h : n = none ∨ o = none ∨ p = none) :
    AQHIO n o p = none ∧ Top_AQHI_ContributorO n o p = none ∧
    (annotateAQHI r n o p).DATE = r.DATE ∧
    (annotateAQHI r n o p).TE = r.TE ∧
    (annotateAQHI r n o p).CO = r.CO ∧
    (annotateAQHI r n o p).NO = r.NO ∧
    (annotateAQHI r n o p).NO2 = r.NO2 ∧
    (annotateAQHI r n o p).O3 = r.O3 ∧
    (annotateAQHI r n o p).CO2 = r.CO2 ∧
    (annotateAQHI r n o p).T = r.T ∧
    (annotateAQHI r n o p).RH = r.RH ∧
    (annotateAQHI r n o p).PM1 = r.PM1 ∧
    (annotateAQHI r n o p).PM25 = r.PM25 ∧
    (annotateAQHI r n o p).PM10 = r.PM10 := by
  have hsum := component_sumO_none n o p h
  have hA : AQHIO n o p = none := by
    unfold AQHIO
    rw [hsum]
    rfl
  have hT : Top_AQHI_ContributorO n o p = none := by
    unfold Top_AQHI_ContributorO NO2_contribO O3_contribO PM25_contribO
    rw [hsum, nanDiv_none_right, nanDiv_none_right, nanDiv_none_right]
    rfl
  exact ⟨hA, hT, rfl, rfl, rfl, rfl, rfl, rfl, rfl, rfl, rfl, rfl, rfl, rfl⟩

/-- Witness for C7: the NO2 rolling mean is missing, the other two are
present, on a row with empty data cells at timestamp 0. -/
theorem C7_missing_mean_nulls_aqhi_witness :
    AQHIO none (some 1) (some 2) = none ∧
    Top_AQHI_ContributorO none (some 1) (some 2) = none ∧
    (annotateAQHI (emptyQRow 0) none (some 1) (some 2)).DATE = (emptyQRow 0).DATE ∧
    (annotateAQHI (emptyQRow 0) none (some 1) (some 2)).TE = (emptyQRow 0).TE ∧
    (annotateAQHI (emptyQRow 0) none (some 1) (some 2)).CO = (emptyQRow 0).CO ∧
    (annotateAQHI (emptyQRow 0) none (some 1) (some 2)).NO = (emptyQRow 0).NO ∧
    (annotateAQHI (emptyQRow 0) none (some 1) (some 2)).NO2 = (emptyQRow 0).NO2 ∧
    (annotateAQHI (emptyQRow 0) none (some 1) (some 2)).O3 = (emptyQRow 0).O3 ∧
    (annotateAQHI (emptyQRow 0) none (some 1) (some 2)).CO2 = (emptyQRow 0).CO2 ∧
    (annotateAQHI (emptyQRow 0) none (some 1) (some 2)).T = (emptyQRow 0).T ∧
    (annotateAQHI (emptyQRow 0) none (some 1) (some 2)).RH = (emptyQRow 0).RH ∧
    (annotateAQHI (emptyQRow 0) none (some 1) (some 2)).PM1 = (emptyQRow 0).PM1 ∧
    (annotateAQHI (emptyQRow 0) none (some 1) (some 2)).PM25 = (emptyQRow 0).PM25 ∧
    (annotateAQHI (emptyQRow 0) none (some 1) (some 2)).PM10 = (emptyQRow 0).PM10 :=
  C7_missing_mean_nulls_aqhi (emptyQRow 0) none (some 1) (some 2) (Or.inl rfl)

/-! ## Claim C9 -/

/-- C9: when every entry of the calibration table is the identity affine
correction `(scale, offset) = (1, 0)`, the Calibration Engine is the
identity on rows — every field and every value, including "no value",
passes through unchanged. -/
theorem C9_identity_config_is_id (table : List (String × ℚ × ℚ))
    (row : List (String × Option ℚ)) (h : ∀ e ∈ table, e.2 = (1, 0)) :
    calibrateRow table row = row := by
  unfold calibrateRow
  conv_rhs => rw [← List.map_id row]
  refine List.map_congr_left (fun fv _ => ?_)
  cases hf : table.find? (fun e => e.1 == fv.1) with
  | none => rfl
  | some e =>
    have he := h e (List.mem_of_find?_eq_some hf)
    show (fv.1, Option.map (fun x => x * e.2.1 + e.2.2) fv.2) = id fv
    rw [he]
    simp

/-- Witness for C9: an identity table over two fields applied to a row
holding a present value, a missing value, and a field not in the table. -/
theorem C9_identity_config_is_id_witness :
    calibrateRow [("CO", 1, 0), ("NO2", 1, 0)]
        [("CO", some 2), ("RH", none), ("NO2", some (3/2))] =
      [("CO", some 2), ("RH", none), ("NO2", some (3/2))] :=
  C9_identity_config_is_id _ _ (by decide)

/-! ## Claim C10 -/

/-- Evaluation of `aqhi_label` on a numeric input: the threshold chain of
the source, never the "no data" branch. -/
theorem aqhi_label_num (q : ℚ) :
    aqhi_label (PyVal.num q) =
      Except.ok
        (if q ≤ 3 then "Low health risk"
          else if q ≤ 6 then "Moderate health risk"
            else if q ≤ 10 then "High health risk"
              else "Very high health risk") := by
  unfold aqhi_label pyLE
  rw [if_neg (by simp)]
  by_cases h3 : q ≤ 3
  · simp [h3]
  · by_cases h6 : q ≤ 6
    · simp [h3, h6]
    · by_cases h10 : q ≤ 10
      · simp [h3, h6, h10]
      · simp [h3, h6, h10]

/-- C10: `aqhi_label` returns "no data" exactly on the string `"N/A"`;
on any other non-numeric value — in particular `None` — the comparison
`v <= 3` raises a `TypeError` instead of returning a label.  The
snapshot builder emits `None` (not `"N/A"`) for a missing AQHI, and
`latest.get("aqhi", "N/A")` returns that `None` because the key is
present, so feeding such a snapshot to `aqhi_label` raises: the
HelloLamppost builder is not total over the snapshot builder's output. -/
theorem C10_label_partial_on_null (v : PyVal) (ts pr : Option String) :
    (aqhi_label v = Except.ok "no data" ↔ v = PyVal.str "N/A") ∧
    ((∀ q : ℚ, v ≠ PyVal.num q) → v ≠ PyVal.str "N/A" →
      aqhi_label v = Except.error ()) ∧
    pyGet (mkLatest ts none pr) "aqhi" (PyVal.str "N/A") = PyVal.null ∧
    aqhi_label (pyGet (mkLatest ts none pr) "aqhi" (PyVal.str "N/A")) =
      Except.error () := by
  have hget : pyGet (mkLatest ts none pr) "aqhi" (PyVal.str "N/A") = PyVal.null := rfl
  refine ⟨⟨?_, ?_⟩, ?_, hget, by rw [hget]; rfl⟩
  · intro hl
    cases v with
    | null =>
      exfalso
      simp [aqhi_label, pyLE] at hl
    | num q =>
      exfalso
      rw [aqhi_label_num] at hl
      have := Except.ok.inj hl
      split_ifs at this <;> exact absurd this (by decide)
    | str s =>
      by_cases hs : s = "N/A"
      · rw [hs]
      · exfalso
        simp [aqhi_label, pyLE, hs] at hl
  · intro hv
    rw [hv]
    rfl
  · intro hnum hstr
    cases v with
    | null => rfl
    | num q => exact absurd rfl (hnum q)
    | str s =>
      unfold aqhi_label
      rw [if_neg hstr]
      rfl

/-- Witness for C10: the hypotheses of the raising branch discharged at
the concrete value `None`, as produced by the snapshot builder for a
missing AQHI. -/
theorem C10_label_partial_on_null_witness :
    aqhi_label PyVal.null = Except.error () ∧
    pyGet (mkLatest (some "2025-06-30T12:00-07:00") none (some "NO2")) "aqhi"
        (PyVal.str "N/A") = PyVal.null :=
  ⟨(C10_label_partial_on_null PyVal.null (some "2025-06-30T12:00-07:00")
        (some "NO2")).2.1 (fun q => by simp) (by simp),
    (C10_label_partial_on_null PyVal.null (some "2025-06-30T12:00-07:00")
        (some "NO2")).2.2.1⟩
